import Mathlib

/-!
Verification of the runtime core of "Don't Look Back" (Three.js horror game).

Shallow embedding of the state-bearing logic of:
  * `facility_system.js` — `FacilitySystem`: paranoia estimator, endgame latch,
    message cooldown (`monitorParanoia`, `checkMessaging`, `triggerMessage`);
  * `environment.js` — `FacilityGenerator`: drift state, chunk obstacle grid,
    chunk eviction, light flicker (`setDriftIntensity`, `generateCorridorChunk`,
    `cleanupChunks`, `removeChunk`, `flickerLights`);
  * `main.js` — `GameClient.enterCorridor` zone transition.

JS numbers are modelled as ℚ (none of the verified properties depend on
floating-point rounding); for the one claim about NaN handling a dedicated
`JsNum` type with JS NaN-propagation semantics is used.  `Math.random()`
draws are passed in as explicit parameters.  DOM / rendering / audio side
effects are outside the modelled state.
-/

namespace DLB

/-! ## FacilitySystem: data model (facility_system.js, constructor) -/

/-- Behavioral metrics produced by `Player.updateMetrics` (player.js) and read
by `FacilitySystem`.  Only the fields the facility system reads are modelled. -/
structure Metrics where
  isLookingBack : Bool
  isStationary : Bool
  continuousForwardTime : ℚ
  stationaryTime : ℚ
  /-- Field `zoneHistory`: 5-unit z buckets pushed once per second (player.js). -/
  zoneHistory : List ℤ
  deriving Repr, DecidableEq

/-- Embeds `this.maxParanoia = 100` (facility_system.js line 10); never reassigned. -/
def maxParanoia : ℚ := 100

/-- Mutable state of `FacilitySystem` relevant to the claims.  `maxParanoiaTimer`
and `endgameTriggered` start out `undefined` in JS; since `undefined > 0` is
`false` and `!undefined` is `true`, initializing them to `0` / `false` is
observationally equivalent.  `enterEndgameCalls` counts invocations of
`this.environment.enterEndgame()` so that "fires exactly once" is statable. -/
structure SysState where
  paranoiaLevel : ℚ
  maxParanoiaTimer : ℚ
  endgameTriggered : Bool
  blackoutActive : Bool
  cameraInversionActive : Bool
  /-- Mirrors `this.environment.forceBlackout` (owned by the generator, written here). -/
  envForceBlackout : Bool
  enterEndgameCalls : ℕ
  lastMessageTime : ℚ
  baseMessageCooldown : ℚ
  recentMessages : List String
  deriving Repr, DecidableEq

/-- Constructor state of `FacilitySystem` (facility_system.js lines 8-30). -/
def initSysState : SysState :=
  { paranoiaLevel := 0
    maxParanoiaTimer := 0
    endgameTriggered := false
    blackoutActive := false
    cameraInversionActive := false
    envForceBlackout := false
    enterEndgameCalls := 0
    lastMessageTime := 0
    baseMessageCooldown := 15
    recentMessages := [] }

/-- Embeds `getParanoiaFactor` (facility_system.js lines 97-99). -/
def getParanoiaFactor (s : SysState) : ℚ :=
  s.paranoiaLevel / maxParanoia

/-! ## monitorParanoia (facility_system.js lines 101-175) -/

/-- The accrual/decay/clamp portion of `monitorParanoia`
(facility_system.js lines 104-123), acting on the paranoia level. -/
def paranoiaAccrual (delta : ℚ) (m : Metrics) (level : ℚ) : ℚ :=
  -- INCREASE: Looking Back
  let l1 := if m.isLookingBack then level + delta * 20 else level
  -- INCREASE: Continuous Running
  let l2 := if m.continuousForwardTime > 3 then l1 + delta * 1 else l1
  -- DECAY: Recover when stationary or moving carefully
  let l3 :=
    if !m.isLookingBack then
      if m.isStationary then l2 - delta * (1/2)
      else if m.continuousForwardTime < 3 then l2 - delta * (1/2)
      else l2
    else l2
  max 0 (min l3 maxParanoia)

/-- Embeds `monitorParanoia(delta)` (facility_system.js lines 101-175).  The status
tier computation (lines 125-146) only drives the DOM status label and is not
part of the modelled state.  `enterEndgame()` on the environment is recorded
by incrementing `enterEndgameCalls`. -/
def monitorParanoia (delta : ℚ) (m : Metrics) (s : SysState) : SysState :=
  let level := paranoiaAccrual delta m s.paranoiaLevel
  if level ≥ 99 then
    -- TRIGGER ENDGAME (PHASE 3) - DELAYED
    let timer := s.maxParanoiaTimer + delta
    if timer > 20 ∧ !s.endgameTriggered then
      { s with paranoiaLevel := level, maxParanoiaTimer := timer,
               blackoutActive := false, envForceBlackout := false,
               cameraInversionActive := false, endgameTriggered := true,
               enterEndgameCalls := s.enterEndgameCalls + 1 }
    else
      { s with paranoiaLevel := level, maxParanoiaTimer := timer }
  else
    -- bleed the hold timer slowly instead of resetting it
    { s with paranoiaLevel := level,
             maxParanoiaTimer :=
               if s.maxParanoiaTimer > 0 then s.maxParanoiaTimer - delta * (1/2)
               else s.maxParanoiaTimer }

/-- One paranoia tick, input-first, for folding over an input trace. -/
def paranoiaStep (s : SysState) (input : ℚ × Metrics) : SysState :=
  monitorParanoia input.1 input.2 s

end DLB

namespace DLB

/-! ## Claims C1 and C3: paranoia level bounds and update rule -/

theorem paranoiaAccrual_nonneg (delta : ℚ) (m : Metrics) (level : ℚ) :
    0 ≤ paranoiaAccrual delta m level := by
  unfold paranoiaAccrual
  exact le_max_left 0 _

theorem paranoiaAccrual_le_max (delta : ℚ) (m : Metrics) (level : ℚ) :
    paranoiaAccrual delta m level ≤ maxParanoia := by
  unfold paranoiaAccrual
  have h : (0 : ℚ) ≤ maxParanoia := by norm_num [maxParanoia]
  exact max_le h (min_le_right _ _)

theorem monitorParanoia_level_eq_accrual (delta : ℚ) (m : Metrics) (s : SysState) :
    (monitorParanoia delta m s).paranoiaLevel = paranoiaAccrual delta m s.paranoiaLevel := by
  unfold monitorParanoia
  by_cases h1 : paranoiaAccrual delta m s.paranoiaLevel ≥ 99 <;>
    by_cases h2 : s.maxParanoiaTimer + delta > 20 ∧ !s.endgameTriggered <;>
    by_cases h3 : s.maxParanoiaTimer > 0 <;>
    simp [h1, h2, h3] <;>
    (try (split <;> rfl))

/-- C1: For every dt ≥ 0 and any behavior metrics, after one paranoia update
(`monitorParanoia`) the paranoia level satisfies
`0 ≤ paranoiaLevel ≤ maxParanoia` — the final clamp
`Math.max(0, Math.min(level, maxParanoia))` guarantees both bounds. -/
theorem monitorParanoia_level_bounds (delta : ℚ) (m : Metrics) (s : SysState)
    (hdt : 0 ≤ delta) :
    0 ≤ (monitorParanoia delta m s).paranoiaLevel ∧
      (monitorParanoia delta m s).paranoiaLevel ≤ maxParanoia := by
  rw [monitorParanoia_level_eq_accrual]
  exact ⟨paranoiaAccrual_nonneg _ _ _, paranoiaAccrual_le_max _ _ _⟩

theorem monitorParanoia_level_bounds_witness :
    (0 : ℚ) ≤ 1 ∧
      (0 ≤ (monitorParanoia 1
        { isLookingBack := true, isStationary := false,
          continuousForwardTime := 0, stationaryTime := 0, zoneHistory := [] }
        initSysState).paranoiaLevel ∧
       (monitorParanoia 1
        { isLookingBack := true, isStationary := false,
          continuousForwardTime := 0, stationaryTime := 0, zoneHistory := [] }
        initSysState).paranoiaLevel ≤ maxParanoia) :=
  ⟨by norm_num,
   monitorParanoia_level_bounds 1
     { isLookingBack := true, isStationary := false,
       continuousForwardTime := 0, stationaryTime := 0, zoneHistory := [] }
     initSysState (by norm_num)⟩

/-- C3: in each paranoia update with step `dt`, the new level is the clamp to
`[0, maxParanoia]` of the old level, plus `20·dt` when looking back, plus
`1·dt` when `continuousForwardTime > 3`, minus `0.5·dt` exactly when the
player is not looking back and is stationary or has
`continuousForwardTime < 3`. -/
theorem monitorParanoia_update_rule (delta : ℚ) (m : Metrics) (s : SysState) :
    (monitorParanoia delta m s).paranoiaLevel =
      max 0 (min (s.paranoiaLevel
        + (if m.isLookingBack then 20 * delta else 0)
        + (if m.continuousForwardTime > 3 then 1 * delta else 0)
        - (if ¬m.isLookingBack ∧ (m.isStationary ∨ m.continuousForwardTime < 3)
           then (1/2) * delta else 0)) maxParanoia) := by
  rw [monitorParanoia_level_eq_accrual]
  unfold paranoiaAccrual
  rcases hlb : m.isLookingBack with _ | _ <;>
    rcases hst : m.isStationary with _ | _ <;>
    simp only [hlb, hst, Bool.not_true, Bool.not_false, if_true, if_false,
      Bool.false_eq_true, Bool.true_eq_false, not_false_iff, not_true,
      false_and, true_and, false_or, or_true, true_or, and_true, and_false] <;>
    split_ifs <;> ring_nf

/-! ## Claim C2: the endgame trigger is a one-way latch -/

theorem monitorParanoia_factor_ge_iff (delta : ℚ) (m : Metrics) (s : SysState) :
    getParanoiaFactor (monitorParanoia delta m s) ≥ 0.99 ↔
      paranoiaAccrual delta m s.paranoiaLevel ≥ 99 := by
  rw [getParanoiaFactor, monitorParanoia_level_eq_accrual, maxParanoia,
    ge_iff_le, le_div_iff₀ (by norm_num : (0:ℚ) < 100)]
  norm_num

/-- Counter `enterEndgameCalls` mirrors the `endgameTriggered` latch across one step. -/
theorem paranoiaStep_calls_invariant (s : SysState) (i : ℚ × Metrics)
    (h : s.enterEndgameCalls = if s.endgameTriggered then 1 else 0) :
    (paranoiaStep s i).enterEndgameCalls =
      if (paranoiaStep s i).endgameTriggered then 1 else 0 := by
  unfold paranoiaStep monitorParanoia
  simp only [gt_iff_lt, Bool.not_eq_true']
  by_cases h1 : paranoiaAccrual i.1 i.2 s.paranoiaLevel ≥ 99 <;>
    by_cases h2 : 20 < s.maxParanoiaTimer + i.1 ∧ s.endgameTriggered = false <;>
    simp [h1, h2, h]

theorem foldl_paranoiaStep_calls_invariant (trace : List (ℚ × Metrics)) :
    ∀ s : SysState, s.enterEndgameCalls = (if s.endgameTriggered then 1 else 0) →
      (trace.foldl paranoiaStep s).enterEndgameCalls =
        if (trace.foldl paranoiaStep s).endgameTriggered then 1 else 0 := by
  induction trace with
  | nil => intro s h; simpa using h
  | cons i tl ih =>
      intro s h
      exact ih (paranoiaStep s i) (paranoiaStep_calls_invariant s i h)

/-- C2: the endgame trigger is a one-way latch.  Writing `s'` for the state
after one `monitorParanoia` step: (1) whenever the post-update paranoia factor
is ≥ 0.99 the hold timer accumulates at rate `dt`; (2) if additionally the
accumulated timer exceeds 20 s and the latch had not fired, the transition
fires: the blackout and camera-inversion event state (and the environment's
`forceBlackout`) are cleared, the latch sets, and `enterEndgame` is invoked;
(3) once fired, the latch never unsets and `enterEndgame` is never invoked
again; (4) while unfired with factor < 0.99, a positive hold timer bleeds at
half rate `0.5·dt` instead of resetting; and (5) along any input trace from
the initial state, `enterEndgame` is invoked at most once. -/
theorem endgame_latch :
    (∀ (delta : ℚ) (m : Metrics) (s : SysState),
      (getParanoiaFactor (monitorParanoia delta m s) ≥ 0.99 →
        (monitorParanoia delta m s).maxParanoiaTimer = s.maxParanoiaTimer + delta) ∧
      (getParanoiaFactor (monitorParanoia delta m s) ≥ 0.99 →
        s.maxParanoiaTimer + delta > 20 → s.endgameTriggered = false →
        (monitorParanoia delta m s).endgameTriggered = true ∧
        (monitorParanoia delta m s).blackoutActive = false ∧
        (monitorParanoia delta m s).envForceBlackout = false ∧
        (monitorParanoia delta m s).cameraInversionActive = false ∧
        (monitorParanoia delta m s).enterEndgameCalls = s.enterEndgameCalls + 1) ∧
      (s.endgameTriggered = true →
        (monitorParanoia delta m s).endgameTriggered = true ∧
        (monitorParanoia delta m s).enterEndgameCalls = s.enterEndgameCalls) ∧
      (getParanoiaFactor (monitorParanoia delta m s) < 0.99 →
        s.endgameTriggered = false → s.maxParanoiaTimer > 0 →
        (monitorParanoia delta m s).maxParanoiaTimer
          = s.maxParanoiaTimer - delta * (1/2))) ∧
    (∀ trace : List (ℚ × Metrics),
      (trace.foldl paranoiaStep initSysState).enterEndgameCalls ≤ 1) := by
  constructor
  · intro delta m s
    have hiff := monitorParanoia_factor_ge_iff delta m s
    refine ⟨?_, ?_, ?_, ?_⟩
    · intro hf
      have h1 : paranoiaAccrual delta m s.paranoiaLevel ≥ 99 := hiff.mp hf
      unfold monitorParanoia
      simp only [h1, ite_true, if_pos]
      split <;> rfl
    · intro hf htimer htrig
      have h1 : paranoiaAccrual delta m s.paranoiaLevel ≥ 99 := hiff.mp hf
      unfold monitorParanoia
      simp [h1, htimer, htrig]
    · intro htrig
      unfold monitorParanoia
      by_cases h1 : paranoiaAccrual delta m s.paranoiaLevel ≥ 99 <;>
        simp [h1, htrig]
    · intro hf htrig htimer
      have h1 : ¬ paranoiaAccrual delta m s.paranoiaLevel ≥ 99 := by
        intro hge
        exact absurd (hiff.mpr hge) (not_le.mpr hf)
      unfold monitorParanoia
      simp [h1, htimer]
  · intro trace
    have h := foldl_paranoiaStep_calls_invariant trace initSysState (by rfl)
    rw [h]
    split <;> norm_num

theorem endgame_latch_witness :
    (getParanoiaFactor (monitorParanoia 1
        { isLookingBack := true, isStationary := false,
          continuousForwardTime := 0, stationaryTime := 0, zoneHistory := [] }
        { initSysState with paranoiaLevel := 100, maxParanoiaTimer := 20 }) ≥ 0.99 ∧
      (20 : ℚ) + 1 > 20 ∧
      (monitorParanoia 1
        { isLookingBack := true, isStationary := false,
          continuousForwardTime := 0, stationaryTime := 0, zoneHistory := [] }
        { initSysState with paranoiaLevel := 100, maxParanoiaTimer := 20 }).endgameTriggered
        = true) ∧
    ((List.replicate 30 ((1 : ℚ),
        ({ isLookingBack := true, isStationary := false,
           continuousForwardTime := 0, stationaryTime := 0,
           zoneHistory := [] } : Metrics))).foldl paranoiaStep
       initSysState).enterEndgameCalls ≤ 1 := by
  have hf : getParanoiaFactor (monitorParanoia 1
      { isLookingBack := true, isStationary := false,
        continuousForwardTime := 0, stationaryTime := 0, zoneHistory := [] }
      { initSysState with paranoiaLevel := 100, maxParanoiaTimer := 20 }) ≥ 0.99 := by
    norm_num [monitorParanoia, paranoiaAccrual, getParanoiaFactor, maxParanoia, initSysState]
  refine ⟨⟨hf, by norm_num, ?_⟩, endgame_latch.2 _⟩
  exact ((endgame_latch.1 1 _ _).2.1 hf (by norm_num) (by rfl)).1

/-! ## FacilityGenerator: drift state (environment.js) -/

/-- Embeds `this.drift` (environment.js lines 40-45). -/
structure DriftState where
  loopCount : ℕ
  heightOffset : ℚ
  lightDimming : ℚ
  pillarOffset : ℚ
  deriving Repr, DecidableEq

/-- Constructor value of `this.drift`. -/
def initDrift : DriftState :=
  { loopCount := 0, heightOffset := 0, lightDimming := 0, pillarOffset := 0 }

/-- Embeds `THREE.MathUtils.clamp(value, min, max) = Math.max(min, Math.min(max, value))`. -/
def clamp (value lo hi : ℚ) : ℚ := max lo (min hi value)

/-- Embeds `setDriftIntensity(intensity)` (environment.js lines 55-58):
`this.drift.pillarOffset = intensity * 1.5` — written without any clamp. -/
def setDriftIntensity (intensity : ℚ) (d : DriftState) : DriftState :=
  { d with pillarOffset := intensity * 1.5 }

/-- The drift random-walk update at the top of `generateCorridorChunk`
(environment.js lines 622-632); the three `Math.random()` draws are the
parameters `r1 r2 r3`. -/
def generateChunkDrift (r1 r2 r3 : ℚ) (d : DriftState) : DriftState :=
  { loopCount := d.loopCount + 1
    heightOffset := clamp (d.heightOffset + (r1 - 0.5) * 0.1) (-1) 1.5
    lightDimming := clamp (d.lightDimming + (r2 - 0.3) * 0.1) (-0.5) 0.8
    pillarOffset := clamp (d.pillarOffset + (r3 - 0.5) * 0.2) (-1) 1 }

/-- Drift intensity computed by `FacilitySystem.update` (facility_system.js
lines 82-91): `0` up to factor `0.5`, then `(pFactor − 0.5) · 2`. -/
def driftIntensityOf (pFactor : ℚ) : ℚ :=
  if pFactor > 0.5 then (pFactor - 0.5) * 2 else 0

/-! ## Claim C4: drift fields and their clamp ranges -/

theorem clamp_mem (value lo hi : ℚ) (h : lo ≤ hi) :
    lo ≤ clamp value lo hi ∧ clamp value lo hi ≤ hi := by
  refine ⟨le_max_left _ _, max_le h (min_le_left _ _)⟩

/-- C4 counterexample: the externally driven `setDriftIntensity` path escapes
`pillarOffset`'s clamp range `[-1, 1]`.  At paranoia factor 1 the facility
system computes drift intensity `(1 − 0.5)·2 = 1`, and `setDriftIntensity`
then sets `pillarOffset = 1·1.5 = 1.5 > 1`. -/
theorem drift_clamp_counterexample :
    (setDriftIntensity (driftIntensityOf 1) initDrift).pillarOffset = 1.5 ∧
      ¬ ((setDriftIntensity (driftIntensityOf 1) initDrift).pillarOffset ≤ 1) := by
  norm_num [setDriftIntensity, driftIntensityOf, initDrift]

/-- C4 (amended): under `generateCorridorChunk`'s clamped random walk the
drift fields always land inside their fixed ranges (`heightOffset ∈ [-1,1.5]`,
`lightDimming ∈ [-0.5,0.8]`, `pillarOffset ∈ [-1,1]`), for arbitrary random
draws; `loopCount` only ever increments (never resets).  The
`setDriftIntensity` path instead sets `pillarOffset = 1.5·intensity`, which
for the reachable intensities `0 ≤ i ≤ 1` lies in `[0, 1.5]` — exceeding the
clamp range `[-1, 1]` whenever `i > 2/3` — and leaves the other fields
unchanged. -/
theorem drift_fields_bounded (r1 r2 r3 : ℚ) (d : DriftState) :
    ((-1 ≤ (generateChunkDrift r1 r2 r3 d).heightOffset ∧
        (generateChunkDrift r1 r2 r3 d).heightOffset ≤ 1.5) ∧
      (-0.5 ≤ (generateChunkDrift r1 r2 r3 d).lightDimming ∧
        (generateChunkDrift r1 r2 r3 d).lightDimming ≤ 0.8) ∧
      (-1 ≤ (generateChunkDrift r1 r2 r3 d).pillarOffset ∧
        (generateChunkDrift r1 r2 r3 d).pillarOffset ≤ 1) ∧
      (generateChunkDrift r1 r2 r3 d).loopCount = d.loopCount + 1) ∧
    (∀ i : ℚ, 0 ≤ i → i ≤ 1 →
      (0 ≤ (setDriftIntensity i d).pillarOffset ∧
        (setDriftIntensity i d).pillarOffset ≤ 1.5) ∧
      (setDriftIntensity i d).heightOffset = d.heightOffset ∧
      (setDriftIntensity i d).lightDimming = d.lightDimming ∧
      (setDriftIntensity i d).loopCount = d.loopCount) := by
  constructor
  · refine ⟨clamp_mem _ _ _ (by norm_num), clamp_mem _ _ _ (by norm_num),
      clamp_mem _ _ _ (by norm_num), rfl⟩
  · intro i h0 h1
    refine ⟨⟨?_, ?_⟩, rfl, rfl, rfl⟩
    · simpa [setDriftIntensity] using mul_nonneg h0 (by norm_num)
    · simp only [setDriftIntensity]
      calc i * 1.5 ≤ 1 * 1.5 := by nlinarith
        _ = 1.5 := by norm_num

theorem drift_fields_bounded_witness :
    ((0:ℚ) ≤ 1 ∧ (1:ℚ) ≤ 1) ∧
      (0 ≤ (setDriftIntensity 1 initDrift).pillarOffset ∧
        (setDriftIntensity 1 initDrift).pillarOffset ≤ 1.5) ∧
      (-1 ≤ (generateChunkDrift 0 0 1 initDrift).pillarOffset ∧
        (generateChunkDrift 0 0 1 initDrift).pillarOffset ≤ 1) :=
  ⟨⟨by norm_num, by norm_num⟩,
    ((drift_fields_bounded 0 0 1 initDrift).2 1 (by norm_num) (by norm_num)).1,
    (drift_fields_bounded 0 0 1 initDrift).1.2.2.1⟩

/-! ## Claim C5: obstacle grid alignment (environment.js lines 666-689) -/

/-- Embeds `this.chunkSize = 20` (environment.js line 34). -/
def chunkSize : ℚ := 20

/-- The generation loop
`for (let gZ = alignBase; gZ < chunkStartWorld + length; gZ += spacing)`
with `spacing = 8`; fuel-indexed (the loop body runs at most 3 times, since
`alignBase ≥ chunkStartWorld` and the span is `length = 20`, so fuel 4 is
exact — the fuel-0 case is never reached from `chunkObstacleZs`). -/
def gridZs : ℕ → ℚ → ℚ → List ℚ
  | 0, _, _ => []
  | n + 1, gZ, stop => if gZ < stop then gZ :: gridZs n (gZ + 8) stop else []

/-- The pre-jitter world z positions of the obstacle (pillar) pairs created by
`generateCorridorChunk(zStart)`: `chunkWorldZ = zStart − length/2`,
`chunkStartWorld = chunkWorldZ − length/2`,
`alignBase = Math.ceil(chunkStartWorld / spacing) * spacing`, and each pair is
created at local z `gZ − chunkWorldZ` inside a group positioned at
`chunkWorldZ`, i.e. at world z exactly `gZ`. -/
def chunkObstacleZs (zStart : ℚ) : List ℚ :=
  let length := chunkSize
  let chunkWorldZ := zStart - length / 2
  let chunkStartWorld := chunkWorldZ - length / 2
  let alignBase : ℚ := (⌈chunkStartWorld / 8⌉ : ℤ) * 8
  gridZs 4 alignBase (chunkStartWorld + length)

theorem gridZs_mem_mul8 :
    ∀ (n : ℕ) (m : ℤ) (stop z : ℚ), z ∈ gridZs n ((m : ℚ) * 8) stop →
      ∃ k : ℤ, z = 8 * k := by
  intro n
  induction n with
  | zero => intro m stop z hz; simp [gridZs] at hz
  | succ n ih =>
      intro m stop z hz
      rw [gridZs] at hz
      by_cases hlt : (m : ℚ) * 8 < stop
      · rw [if_pos hlt] at hz
        rcases List.mem_cons.mp hz with h | h
        · exact ⟨m, by rw [h]; ring⟩
        · have : ((m : ℚ)) * 8 + 8 = ((m + 1 : ℤ) : ℚ) * 8 := by push_cast; ring
          rw [this] at h
          exact ih (m + 1) stop z h
      · rw [if_neg hlt] at hz
        simp at hz

/-- C5: every pre-jitter obstacle-pair world z position produced by
`generateCorridorChunk` is an exact integer multiple of the spacing constant
8, for every chunk start offset `zStart`. -/
theorem obstacle_grid_alignment (zStart z : ℚ) (hz : z ∈ chunkObstacleZs zStart) :
    ∃ k : ℤ, z = 8 * k := by
  simp only [chunkObstacleZs] at hz
  exact gridZs_mem_mul8 4 ⌈(zStart - chunkSize / 2 - chunkSize / 2) / 8⌉ _ z hz

theorem obstacle_grid_alignment_witness :
    (-16 : ℚ) ∈ chunkObstacleZs 0 ∧ ∃ k : ℤ, (-16 : ℚ) = 8 * k := by
  have hceil : ⌈(-(5/2) : ℚ)⌉ = -2 := by rw [Int.ceil_eq_iff]; norm_num
  have hmem : (-16 : ℚ) ∈ chunkObstacleZs 0 := by
    have hlist : chunkObstacleZs 0 = [-16, -8] := by
      norm_num [chunkObstacleZs, chunkSize]
      norm_num [hceil, gridZs]
    rw [hlist]
    simp
  exact ⟨hmem, obstacle_grid_alignment 0 (-16) hmem⟩

/-! ## FacilityGenerator: chunk registry state (environment.js) -/

/-- The flickerable state of a light fixture mesh
(`light.userData.mesh.visible`, `mesh.material.emissiveIntensity`). -/
structure MeshState where
  visible : Bool
  emissiveIntensity : ℚ
  deriving Repr, DecidableEq

/-- A `THREE.PointLight` entry of `this.lights` with its `userData` link
(environment.js lines 748-759).  `parent` is the scene-graph parent handle
(the owning chunk group), used by `removeLightsInChunk`'s
`l.parent !== null` filter. -/
structure Light where
  intensity : ℚ
  originalIntensity : ℚ
  visible : Bool
  parent : Option ℕ
  mesh : Option MeshState
  deriving Repr, DecidableEq

/-- A corridor chunk group: its `position.z` and the handles of its children
that may occur in `interactables`. -/
structure Chunk where
  z : ℚ
  children : List ℕ
  deriving Repr, DecidableEq

/-- An entry of `this.pillarPositions` (`{x, z}` world coordinates). -/
structure PillarPos where
  x : ℚ
  z : ℚ
  deriving Repr, DecidableEq

/-- The generator's registries touched by chunk eviction. -/
structure GenState where
  chunks : List Chunk
  lights : List Light
  interactables : List ℕ
  pillarPositions : List PillarPos
  deriving Repr, DecidableEq

/-- Embeds `removeChunk(chunk)` (environment.js lines 764-777), minus the external
`scene.remove` call: `removeLightsInChunk` keeps only lights whose scene-graph
parent is non-null; each child of the chunk is spliced out of `interactables`
(first occurrence, via `indexOf`/`splice`); pillar positions at or beyond
`chunk.position.z + 20` are trimmed. -/
def removeChunkEffects (s : GenState) (c : Chunk) : GenState :=
  { s with
    lights := s.lights.filter (fun l => l.parent.isSome)
    interactables := c.children.foldl (fun acc h => acc.erase h) s.interactables
    pillarPositions := s.pillarPositions.filter (fun p => p.z < c.z + 20) }

/-- Embeds `cleanupChunks(playerZ)` (environment.js lines 604-619): walks the chunk
array from the back and removes every chunk with
`position.z > playerZ + 40` (`cleanThreshold`), applying `removeChunk` to
each; restated as per-removed-chunk effects folded in back-to-front order
plus one filter of the chunk array. -/
def cleanupChunks (playerZ : ℚ) (s : GenState) : GenState :=
  let removed := (s.chunks.filter (fun c => c.z > playerZ + 40)).reverse
  let s' := removed.foldl removeChunkEffects s
  { s' with chunks := s.chunks.filter (fun c => ¬ (c.z > playerZ + 40)) }

/-! ## Claim C6: eviction is idempotent -/

/-- C6: calling `cleanupChunks` twice in a row with the same player position
and no intervening generation changes nothing the second time: the chunk
list, light registry, interactables list and pillar-position list are all
left exactly as the first call produced them. -/
theorem cleanupChunks_idempotent (playerZ : ℚ) (s : GenState) :
    cleanupChunks playerZ (cleanupChunks playerZ s) = cleanupChunks playerZ s := by
  have key : ∀ t : GenState,
      t.chunks.filter (fun c => c.z > playerZ + 40) = [] →
      cleanupChunks playerZ t = t := by
    intro t ht
    have hall := List.filter_eq_nil_iff.mp ht
    simp only [cleanupChunks]
    rw [ht]
    simp only [List.reverse_nil, List.foldl_nil]
    have hself : t.chunks.filter (fun c => ¬ (c.z > playerZ + 40)) = t.chunks := by
      apply List.filter_eq_self.mpr
      intro c hc
      simpa using hall c hc
    rw [hself]
  apply key
  have hchunks : (cleanupChunks playerZ s).chunks
      = s.chunks.filter (fun c => ¬ (c.z > playerZ + 40)) := rfl
  rw [hchunks, List.filter_filter]
  apply List.filter_eq_nil_iff.mpr
  intro c _
  by_cases h : c.z > playerZ + 40 <;> simp [h]

/-! ## Claim C10: flickerLights is a no-op while forceBlackout is set -/

/-- The per-light body of the `flickerLights` loop (environment.js lines
855-877); `r = (r₁, r₂, r₃)` are the three `Math.random()` draws for this
light.  The `pointLight.visible` flag itself is not touched by flicker. -/
def flickerOne (r : ℚ × ℚ × ℚ) (l : Light) : Light :=
  if r.1 < 0.3 then
    let mult := if r.2.1 < 0.5 then 0 else 0.1 + r.2.2 * 1.1
    let l' := { l with intensity := l.originalIntensity * mult }
    match l.mesh with
    | none => l'
    | some _ =>
        if mult < 0.05 then
          { l' with mesh := some { visible := false, emissiveIntensity := 0 } }
        else
          { l' with mesh := some { visible := true, emissiveIntensity := 2 * mult } }
  else l

/-- Embeds `flickerLights()` (environment.js lines 850-878): returns immediately when
`this.forceBlackout` is set, otherwise perturbs each light with its own
random draws. -/
def flickerLights (forceBlackout : Bool) (rng : ℕ → ℚ × ℚ × ℚ)
    (lights : List Light) : List Light :=
  if forceBlackout then lights
  else lights.mapIdx (fun i l => flickerOne (rng i) l)

/-- C10: whenever the global blackout flag is set, `flickerLights` is a
complete no-op — the whole light registry (intensities, visibility flags and
linked mesh emissive state) is returned unchanged, for any random draws. -/
theorem flickerLights_noop_during_blackout (rng : ℕ → ℚ × ℚ × ℚ)
    (lights : List Light) :
    flickerLights true rng lights = lights := by
  simp [flickerLights]

/-! ## Contextual messaging (facility_system.js lines 327-425) -/

/-- The message pool keys of `this.messagePools`. -/
inductive PoolName where
  | stationary
  | lookBack
  | continuousMove
  | zoneReentry
  | highParanoia
  | contradiction
  deriving Repr, DecidableEq

/-- Embeds `this.messagePools` (facility_system.js lines 37-73). -/
def messagePools : PoolName → List String
  | .stationary =>
      ["WHY HAVE YOU STOPPED?", "CONTINUE MOVING", "CAN YOU HEAR IT?",
       "YOU ARE BEING WATCHED"]
  | .lookBack =>
      ["THERE IS NOTHING BEHIND YOU", "LOOKING BACK IS UNNECESSARY",
       "WHY DO YOU KEEP CHECKING?", "DON\x27T LOOK BACK", "YOU SEEM NERVOUS"]
  | .continuousMove =>
      ["KEEP WALKING", "CONTINUE MOVING", "DO NOT STOP",
       "YOU ARE MAKING PROGRESS", "THE CORRIDOR CONTINUES"]
  | .zoneReentry =>
      ["THIS PLACE REMEMBERS YOU", "HAVE YOU BEEN HERE BEFORE?",
       "YOU CANNOT GO BACK"]
  | .highParanoia =>
      ["THEY KNOW YOU KNOW", "DONT TURN AROUND", "IT IS GETTING CLOSER", "RUN"]
  | .contradiction =>
      ["IT WAS A LIE", "THAT WAS FALSE"]

/-- The `Math.random()` draws consumed by one `checkMessaging` /
`triggerMessage` pass, one per decision site; `picks i` stands for the
`Math.floor(Math.random() * pool.length)` index of retry `i` (reduced mod
the pool length, which is how a uniform draw lands in range). -/
structure MsgRng where
  rHigh : ℚ
  rZone : ℚ
  rLook : ℚ
  rStat : ℚ
  rCont : ℚ
  rContra : ℚ
  picks : ℕ → ℕ

/-- Embeds `const currentCooldown = Math.max(8.0, this.baseMessageCooldown - (pFactor * 7.0))`
(facility_system.js line 334). -/
def currentCooldown (base pFactor : ℚ) : ℚ :=
  max 8 (base - pFactor * 7)

/-- The pool-selection ladder of `checkMessaging` (facility_system.js lines
339-371): the high-paranoia override, then zone re-entry, look-back,
stationary, and continuous-movement, each only when nothing earlier fired. -/
def selectPool (pFactor : ℚ) (m : Metrics) (rng : MsgRng) : Option PoolName :=
  if pFactor > 0.7 ∧ rng.rHigh < 0.4 then some .highParanoia
  else if m.zoneHistory.length > 15 ∧
      m.zoneHistory.getLastD 0 ∈ m.zoneHistory.take (m.zoneHistory.length - 10) ∧
      rng.rZone < 0.1 then some .zoneReentry
  else if m.isLookingBack ∧ rng.rLook < 0.3 then some .lookBack
  else if m.isStationary ∧ m.stationaryTime > 5 ∧ rng.rStat < 0.2 then
    some .stationary
  else if m.continuousForwardTime > 15 ∧ rng.rCont < 0.2 then
    some .continuousMove
  else none

/-- The unique-message retry loop of `triggerMessage` (facility_system.js
lines 404-416): up to 3 draws, first non-recent draw wins, else the last
draw stands. -/
def pickMessage (pool : List String) (recent : List String)
    (picks : ℕ → ℕ) : String :=
  let m0 := pool.getD (picks 0 % pool.length) ""
  if m0 ∉ recent then m0
  else
    let m1 := pool.getD (picks 1 % pool.length) ""
    if m1 ∉ recent then m1
    else pool.getD (picks 2 % pool.length) ""

/-- Embeds `triggerMessage(time, poolName, pFactor)` (facility_system.js lines
393-425): stamps `lastMessageTime`, possibly swaps in the contradiction
pool, picks a message avoiding the 5-entry recency queue, and pushes it
(evicting the oldest entry past 5).  `logMessage` is DOM-only. -/
def triggerMessage (time : ℚ) (poolName : PoolName) (pFactor : ℚ)
    (rng : MsgRng) (s : SysState) : SysState :=
  let actualPool :=
    if rng.rContra < 0.01 + pFactor * 0.2 then PoolName.contradiction
    else poolName
  let pool := messagePools actualPool
  let msg := pickMessage pool s.recentMessages rng.picks
  let recent := s.recentMessages ++ [msg]
  let recent := if recent.length > 5 then recent.tail else recent
  { s with lastMessageTime := time, recentMessages := recent }

/-- Embeds `checkMessaging(time, pFactor)` (facility_system.js lines 327-376),
returning the new state together with whether `triggerMessage` fired. -/
def checkMessaging (time pFactor : ℚ) (m : Metrics) (rng : MsgRng)
    (s : SysState) : SysState × Bool :=
  if s.endgameTriggered then (s, false)
  else if time - s.lastMessageTime
      < currentCooldown s.baseMessageCooldown pFactor then (s, false)
  else
    match selectPool pFactor m rng with
    | none => (s, false)
    | some p => (triggerMessage time p pFactor rng s, true)

/-! ## Claim C7: message cooldown -/

theorem checkMessaging_triggered (time pFactor : ℚ) (m : Metrics)
    (rng : MsgRng) (s : SysState)
    (h : (checkMessaging time pFactor m rng s).2 = true) :
    (checkMessaging time pFactor m rng s).1.lastMessageTime = time ∧
      (checkMessaging time pFactor m rng s).1.baseMessageCooldown
        = s.baseMessageCooldown := by
  unfold checkMessaging at *
  by_cases he : s.endgameTriggered
  · simp [he] at h
  · by_cases hcd : time - s.lastMessageTime
        < currentCooldown s.baseMessageCooldown pFactor
    · simp [he, hcd] at h
    · rcases hsel : selectPool pFactor m rng with _ | p
      · simp [he, hcd, hsel] at h
      · simp [he, hcd, hsel, triggerMessage]

theorem checkMessaging_skips_inside_cooldown (time pFactor : ℚ) (m : Metrics)
    (rng : MsgRng) (s : SysState)
    (h : time - s.lastMessageTime
      < currentCooldown s.baseMessageCooldown pFactor) :
    (checkMessaging time pFactor m rng s).2 = false := by
  unfold checkMessaging
  by_cases he : s.endgameTriggered <;> simp [he, h]

/-- C7: the message cooldown is `max(8, 15 − factor·7)` seconds
(`baseMessageCooldown = 15` from the constructor), and two `checkMessaging`
calls whose time arguments are less than that cooldown apart trigger at most
one message between them: if the first call fired, the second is silenced by
the cooldown guard. -/
theorem message_cooldown (t1 t2 f1 f2 : ℚ) (m1 m2 : Metrics)
    (r1 r2 : MsgRng) (s : SysState)
    (hbase : s.baseMessageCooldown = 15)
    (hgap : t2 - t1 < currentCooldown 15 f2) :
    currentCooldown 15 f2 = max 8 (15 - f2 * 7) ∧
      ¬ ((checkMessaging t1 f1 m1 r1 s).2 = true ∧
         (checkMessaging t2 f2 m2 r2 (checkMessaging t1 f1 m1 r1 s).1).2
           = true) := by
  refine ⟨rfl, ?_⟩
  rintro ⟨hb1, hb2⟩
  obtain ⟨hlast, hbase'⟩ := checkMessaging_triggered t1 f1 m1 r1 s hb1
  have hskip : (checkMessaging t2 f2 m2 r2 (checkMessaging t1 f1 m1 r1 s).1).2
      = false := by
    apply checkMessaging_skips_inside_cooldown
    rw [hlast, hbase', hbase]
    exact hgap
  rw [hb2] at hskip
  exact absurd hskip (by simp)

theorem message_cooldown_witness :
    initSysState.baseMessageCooldown = 15 ∧
      (105 : ℚ) - 100 < currentCooldown 15 0 ∧
      (currentCooldown 15 0 = max 8 (15 - 0 * 7) ∧
        ¬ ((checkMessaging 100 0
              { isLookingBack := true, isStationary := false,
                continuousForwardTime := 0, stationaryTime := 0,
                zoneHistory := [] }
              { rHigh := 0, rZone := 0, rLook := 0, rStat := 0, rCont := 0,
                rContra := 1, picks := fun _ => 0 } initSysState).2 = true ∧
           (checkMessaging 105 0
              { isLookingBack := true, isStationary := false,
                continuousForwardTime := 0, stationaryTime := 0,
                zoneHistory := [] }
              { rHigh := 0, rZone := 0, rLook := 0, rStat := 0, rCont := 0,
                rContra := 1, picks := fun _ => 0 }
              (checkMessaging 100 0
                { isLookingBack := true, isStationary := false,
                  continuousForwardTime := 0, stationaryTime := 0,
                  zoneHistory := [] }
                { rHigh := 0, rZone := 0, rLook := 0, rStat := 0, rCont := 0,
                  rContra := 1, picks := fun _ => 0 } initSysState).1).2
             = true)) := by
  refine ⟨rfl, by norm_num [currentCooldown], ?_⟩
  exact message_cooldown 100 105 0 0 _ _ _ _ initSysState rfl
    (by norm_num [currentCooldown])

/-! ## Claim C8: invalid frame deltas (JS number semantics)

JavaScript numbers with NaN: `NaN` absorbs arithmetic and makes every
comparison false; `Math.min`/`Math.max` return `NaN` when either argument
is `NaN`. -/

/-- A JavaScript number: either NaN or an (idealized exact) value. -/
inductive JsNum where
  | nan : JsNum
  | num : ℚ → JsNum
  deriving Repr, DecidableEq

def JsNum.add : JsNum → JsNum → JsNum
  | num a, num b => num (a + b)
  | _, _ => nan

def JsNum.sub : JsNum → JsNum → JsNum
  | num a, num b => num (a - b)
  | _, _ => nan

def JsNum.mul : JsNum → JsNum → JsNum
  | num a, num b => num (a * b)
  | _, _ => nan

/-- Embeds `Math.min` (NaN-propagating). -/
def jsMin : JsNum → JsNum → JsNum
  | .num a, .num b => .num (min a b)
  | _, _ => .nan

/-- Embeds `Math.max` (NaN-propagating). -/
def jsMax : JsNum → JsNum → JsNum
  | .num a, .num b => .num (max a b)
  | _, _ => .nan

/-- Whether a JS number is an actual (non-NaN) real value. -/
def JsNum.isReal : JsNum → Bool
  | nan => false
  | num _ => true

theorem JsNum.add_nan (x : JsNum) : x.add .nan = .nan := by cases x <;> rfl

theorem JsNum.nan_add (y : JsNum) : JsNum.nan.add y = .nan := by cases y <;> rfl

theorem JsNum.sub_nan (x : JsNum) : x.sub .nan = .nan := by cases x <;> rfl

theorem JsNum.nan_mul (y : JsNum) : JsNum.nan.mul y = .nan := by cases y <;> rfl

theorem jsMin_nan (x : JsNum) : jsMin x .nan = .nan := by cases x <;> rfl

theorem nan_jsMin (y : JsNum) : jsMin .nan y = .nan := by cases y <;> rfl

theorem jsMax_nan (x : JsNum) : jsMax x .nan = .nan := by cases x <;> rfl

theorem nan_jsMax (y : JsNum) : jsMax .nan y = .nan := by cases y <;> rfl

/-- The delta sanitization at the head of `FacilityGenerator.update`
(environment.js lines 570-572, likewise `updateIntroTick` line 781):
`if (delta === undefined || isNaN(delta)) delta = 0.016`.
`none` models an `undefined` argument. -/
def sanitizeDelta (delta : Option JsNum) : JsNum :=
  match delta with
  | none => .num 0.016
  | some .nan => .num 0.016
  | some (.num q) => .num q

/-- The paranoia-level portion of `FacilitySystem.monitorParanoia`
(facility_system.js lines 101-123) under JS number semantics — note the
function performs NO sanitization of `delta`. -/
def monitorParanoiaLevelJs (delta : JsNum) (m : Metrics) (level : JsNum) :
    JsNum :=
  let l1 := if m.isLookingBack then level.add (delta.mul (.num 20)) else level
  let l2 := if m.continuousForwardTime > 3 then l1.add (delta.mul (.num 1))
    else l1
  let l3 :=
    if !m.isLookingBack then
      if m.isStationary then l2.sub (delta.mul (.num (1/2)))
      else if m.continuousForwardTime < 3 then l2.sub (delta.mul (.num (1/2)))
      else l2
    else l2
  jsMax (.num 0) (jsMin l3 (.num 100))

/-- C8 counterexample: `monitorParanoia` does not recover from an invalid
delta.  Ticking the paranoia estimator with a NaN delta while the player is
looking back turns the paranoia level into NaN — an invalid delta IS
propagated into accumulator state, and the level is no longer a real number
in `[0, maxParanoia]`. -/
theorem nan_delta_counterexample :
    monitorParanoiaLevelJs JsNum.nan
        { isLookingBack := true, isStationary := false,
          continuousForwardTime := 0, stationaryTime := 0, zoneHistory := [] }
        (JsNum.num 0) = JsNum.nan ∧
      JsNum.isReal JsNum.nan = false := by
  constructor
  · simp [monitorParanoiaLevelJs, JsNum.nan_mul, JsNum.add_nan, jsMin_nan,
      nan_jsMin, jsMax_nan, nan_jsMax]
  · rfl

/-- C8 (amended): the generator's per-tick update (`FacilityGenerator.update`,
and `updateIntroTick`) recovers an undefined or NaN frame delta locally by
substituting the nominal step 0.016 s and passes valid deltas through
unchanged; but `FacilitySystem.monitorParanoia` performs no such sanitization,
so a NaN delta reaching it poisons the paranoia level (it becomes NaN when
any accrual/decay branch applies, and a NaN level then stays NaN forever). -/
theorem delta_sanitization_amended :
    (∀ q : ℚ, sanitizeDelta (some (JsNum.num q)) = JsNum.num q) ∧
      sanitizeDelta none = JsNum.num 0.016 ∧
      sanitizeDelta (some JsNum.nan) = JsNum.num 0.016 ∧
      (∀ (m : Metrics) (l : JsNum), m.isLookingBack = true →
        monitorParanoiaLevelJs JsNum.nan m l = JsNum.nan) ∧
      (∀ (delta : JsNum) (m : Metrics),
        monitorParanoiaLevelJs delta m JsNum.nan = JsNum.nan) := by
  refine ⟨fun q => rfl, rfl, rfl, ?_, ?_⟩
  · intro m l h
    simp [monitorParanoiaLevelJs, h, JsNum.nan_mul, JsNum.add_nan,
      JsNum.sub_nan, jsMin_nan, nan_jsMin, jsMax_nan, nan_jsMax]
  · intro delta m
    unfold monitorParanoiaLevelJs
    rcases delta with _ | q <;>
      split_ifs <;>
      simp [JsNum.nan_mul, JsNum.nan_add, JsNum.add_nan, JsNum.sub_nan,
        jsMin_nan, nan_jsMin, jsMax_nan, nan_jsMax, JsNum.add, JsNum.sub,
        JsNum.mul]

theorem delta_sanitization_amended_witness :
    ({ isLookingBack := true, isStationary := false,
       continuousForwardTime := 0, stationaryTime := 0,
       zoneHistory := [] } : Metrics).isLookingBack = true ∧
      monitorParanoiaLevelJs JsNum.nan
        { isLookingBack := true, isStationary := false,
          continuousForwardTime := 0, stationaryTime := 0, zoneHistory := [] }
        (JsNum.num 50) = JsNum.nan :=
  ⟨rfl, delta_sanitization_amended.2.2.2.1
    { isLookingBack := true, isStationary := false,
      continuousForwardTime := 0, stationaryTime := 0, zoneHistory := [] }
    (JsNum.num 50) rfl⟩

/-! ## Claim C9: the Intro → Corridor transition and the paranoia reset -/

/-- Embeds `this.currentZone` of `GameClient` (main.js line 114). -/
inductive Zone where
  | intro
  | corridor
  deriving Repr, DecidableEq

/-- The `GameClient` state relevant to `enterCorridor`.  `sysParanoiaProp`
models the dynamically-created `this.system.paranoia` property written by
main.js line 154 — a property that is distinct from the estimator's
`paranoiaLevel` field and that no code ever reads. -/
structure ClientState where
  currentZone : Zone
  sys : SysState
  sysParanoiaProp : Option ℚ
  deriving Repr, DecidableEq

/-- Embeds `GameClient.enterCorridor()` (main.js lines 128-155) restricted to the
modelled state: the debounce guard, the zone switch, and step "4. Initial
Paranoia", which executes `this.system.paranoia = 0`.  Audio, geometry and
music side effects are external. -/
def enterCorridor (c : ClientState) : ClientState :=
  if c.currentZone = Zone.corridor then c
  else { c with currentZone := Zone.corridor, sysParanoiaProp := some 0 }

/-- C9: the transition does NOT reset the estimator's paranoia level.  In
general `enterCorridor` leaves `paranoiaLevel` untouched; concretely, firing
the transition from the intro zone with `paranoiaLevel = 30` ends in the
corridor zone with the dead `system.paranoia` property set to 0 but
`paranoiaLevel` still 30 ≠ 0 — line 154 writes the wrong property. -/
theorem enterCorridor_does_not_reset_paranoiaLevel :
    (∀ c : ClientState, (enterCorridor c).sys.paranoiaLevel
      = c.sys.paranoiaLevel) ∧
      (enterCorridor
        { currentZone := Zone.intro,
          sys := { initSysState with paranoiaLevel := 30 },
          sysParanoiaProp := none }).currentZone = Zone.corridor ∧
      (enterCorridor
        { currentZone := Zone.intro,
          sys := { initSysState with paranoiaLevel := 30 },
          sysParanoiaProp := none }).sysParanoiaProp = some 0 ∧
      (enterCorridor
        { currentZone := Zone.intro,
          sys := { initSysState with paranoiaLevel := 30 },
          sysParanoiaProp := none }).sys.paranoiaLevel = 30 ∧
      (30 : ℚ) ≠ 0 := by
  refine ⟨?_, rfl, rfl, rfl, by norm_num⟩
  intro c
  unfold enterCorridor
  split <;> rfl

end DLB
